import Mathlib

/-!
Shallow embedding of the taxsite backend (Node/Express + PostgreSQL) for
verification of its specification. Tables are lists of rows, ids are
naturals, enumerated roles and statuses are the literal strings the source
uses, and each route handler is a pure function from a database state and a
request to a response and a new database state.
-/

namespace TaxSite

/-- A row of the `users` table (src/models/User.js constructor fields). -/
structure UserRow where
  id : Nat
  email : String
  passwordHash : String
  firstName : String
  lastName : String
  phone : Option String
  role : String
  isVerified : Bool
  verificationToken : Option String
  resetPasswordToken : Option String
  resetPasswordExpires : Option Nat
  lastLogin : Option Nat
  createdAt : Nat
  updatedAt : Nat
deriving DecidableEq, Repr

/-- A row of the `customers` table (profile side-table keyed by user id). -/
structure CustomerRow where
  id : Nat
  userId : Nat
deriving DecidableEq, Repr

/-- A row of the `accountants` table. -/
structure AccountantRow where
  id : Nat
  userId : Nat
  isActive : Bool
deriving DecidableEq, Repr

/-- A row of the `tax_returns` table (src/models/TaxReturn.js constructor fields). -/
structure TaxReturnRow where
  id : Nat
  customerId : Nat
  accountantId : Option Nat
  taxYear : String
  status : String
  situationType : String
  submissionDeadline : Nat
  price : Nat
  paymentStatus : String
deriving DecidableEq, Repr

/-- A child row owned by one tax return (income_sources, expenses, messages, payments). -/
structure ChildRow where
  id : Nat
  taxReturnId : Nat
deriving DecidableEq, Repr

/-- A row of the `documents` table. -/
structure DocumentRow where
  id : Nat
  taxReturnId : Nat
  uploadedBy : Nat
  documentType : String
  originalName : String
  filePath : String
deriving DecidableEq, Repr

/-- The relational store: one list per table touched by the verified routes. -/
structure DB where
  users : List UserRow
  customers : List CustomerRow
  accountants : List AccountantRow
  taxReturns : List TaxReturnRow
  incomeSources : List ChildRow
  expenses : List ChildRow
  documents : List DocumentRow
  messages : List ChildRow
  payments : List ChildRow
deriving DecidableEq, Repr

/-- `SELECT * FROM users WHERE email = $1` (User.findByEmail). -/
def findByEmail (db : DB) (email : String) : Option UserRow :=
  db.users.find? (fun u => u.email == email)

/-- `SELECT * FROM users WHERE id = $1` (User.findById). -/
def findUserById (db : DB) (uid : Nat) : Option UserRow :=
  db.users.find? (fun u => u.id == uid)

/-- `SELECT id FROM customers WHERE user_id = $1` then `rows[0]?.id || null`
(getCustomerIdFromUser in the tax-returns router). -/
def getCustomerIdFromUser (db : DB) (uid : Nat) : Option Nat :=
  (db.customers.find? (fun c => c.userId == uid)).map (fun c => c.id)

/-- `SELECT id FROM accountants WHERE user_id = $1` then `rows[0]?.id` as used
by the tax-returns router for accountant callers. -/
def getAccountantIdFromUser (db : DB) (uid : Nat) : Option Nat :=
  (db.accountants.find? (fun a => a.userId == uid)).map (fun a => a.id)

/-- `SELECT * FROM tax_returns WHERE id = $1` (TaxReturn.findById). -/
def findTaxReturnById (db : DB) (rid : Nat) : Option TaxReturnRow :=
  db.taxReturns.find? (fun tr => tr.id == rid)

/-- TaxReturn.findByCustomerId with the optional tax-year filter: appends
`AND tax_year = $2` exactly when the filter is supplied. -/
def findByCustomerId (db : DB) (cid : Nat) (taxYear : Option String) : List TaxReturnRow :=
  db.taxReturns.filter (fun tr =>
    tr.customerId == cid &&
    (match taxYear with
     | some y => tr.taxYear == y
     | none => true))

/-- The principal attached to `req.user` by the authenticate middleware. -/
structure Principal where
  id : Nat
  email : String
  role : String
deriving DecidableEq, Repr

/- ## JWT model (jsonwebtoken as used by middleware/auth.js) -/

/-- The token payload signed by User.generateToken: id, email, role, expiry. -/
structure Payload where
  id : Nat
  email : String
  role : String
  exp : Nat
deriving DecidableEq, Repr

/-- A bearer token: a payload plus a signature value. -/
structure Token where
  payload : Payload
  sig : Nat
deriving DecidableEq, Repr

/-- Fold a character list into an accumulator, the body of the stand-in hash. -/
def hashChars : List Char → Nat → Nat
  | [], a => a
  | c :: cs, a => hashChars cs (a * 131 + c.toNat + 1)

/-- A concrete keyed hash standing in for the HMAC over the serialized payload. -/
def hashStr (s : String) : Nat :=
  hashChars s.data 7

/-- The signature the server computes for a payload under its secret. -/
def signPayload (secret : String) (p : Payload) : Nat :=
  hashStr secret * 1000003 + hashStr p.email * 31 + p.id * 17 + hashStr p.role * 13 + p.exp

/-- jsonwebtoken error kinds surfaced to the middleware. -/
inductive JwtError where
  | expired
  | invalid
deriving DecidableEq, Repr

/-- `jwt.verify`: the signature is checked first; a bad signature raises
JsonWebTokenError (invalid) even for an expired token, and a token whose
`exp` is at or before the clock raises TokenExpiredError. -/
def jwtVerify (secret : String) (now : Nat) (t : Token) : Except JwtError Payload :=
  if t.sig ≠ signPayload secret t.payload then
    .error .invalid
  else if t.payload.exp ≤ now then
    .error .expired
  else
    .ok t.payload

/-- The outcome of the authenticate middleware: either a 401/500 response or a
principal attached to the request. -/
inductive AuthResult where
  | denied (status : Nat) (error : String)
  | granted (p : Principal)
deriving DecidableEq, Repr

/-- The authenticate middleware (middleware/auth.js): missing header, bad or
expired token, unknown user and unverified user each produce their own 401. -/
def authenticate (db : DB) (secret : String) (now : Nat) (auth : Option Token) : AuthResult :=
  match auth with
  | none => .denied 401 "Access denied. No token provided."
  | some t =>
    match jwtVerify secret now t with
    | .error .expired => .denied 401 "Access denied. Token expired."
    | .error .invalid => .denied 401 "Access denied. Invalid token."
    | .ok decoded =>
      match findUserById db decoded.id with
      | none => .denied 401 "Access denied. User not found."
      | some u =>
        if !u.isVerified then
          .denied 401 "Access denied. Please verify your email address."
        else
          .granted ⟨u.id, u.email, u.role⟩

/- ## User serialization (User.toJSON) -/

/-- A JSON value as produced by the serializers. -/
inductive JVal where
  | s (v : String)
  | n (v : Nat)
  | b (v : Bool)
  | null
deriving DecidableEq, Repr

/-- Lift an optional string field to JSON (null when absent). -/
def optS : Option String → JVal
  | some v => .s v
  | none => .null

/-- Lift an optional numeric field to JSON (null when absent). -/
def optN : Option Nat → JVal
  | some v => .n v
  | none => .null

/-- User.toJSON: the exact key/value pairs the source serializer emits. -/
def toJSON (u : UserRow) : List (String × JVal) :=
  [ ("id", .n u.id),
    ("email", .s u.email),
    ("firstName", .s u.firstName),
    ("lastName", .s u.lastName),
    ("phone", optS u.phone),
    ("role", .s u.role),
    ("isVerified", .b u.isVerified),
    ("lastLogin", optN u.lastLogin),
    ("createdAt", .n u.createdAt),
    ("updatedAt", .n u.updatedAt) ]

/- ## Generic HTTP response shape -/

/-- A JSON API response: HTTP status plus the success/error/message fields. -/
structure Response where
  status : Nat
  success : Bool
  error : Option String
  message : Option String
deriving DecidableEq, Repr

/- ## POST /api/auth/register -/

/-- The validated request body of POST /api/auth/register. -/
structure RegisterInput where
  email : String
  password : String
  firstName : String
  lastName : String
  phone : Option String
  role : Option String
deriving DecidableEq, Repr

/-- The register handler after validation: reject when findByEmail hits,
otherwise insert the user row and its role profile row. Fresh ids and the
hash/token produced by bcrypt/uuid are passed in explicitly. -/
def register (db : DB) (inp : RegisterInput) (newUserId newProfileId : Nat)
    (pwHash vtok : String) (now : Nat) : Response × DB :=
  match findByEmail db inp.email with
  | some _ =>
    (⟨400, false, some "User with this email already exists", none⟩, db)
  | none =>
    let role := inp.role.getD "customer"
    let u : UserRow :=
      ⟨newUserId, inp.email, pwHash, inp.firstName, inp.lastName, inp.phone,
       role, false, some vtok, none, none, none, now, now⟩
    let db1 : DB := { db with users := db.users ++ [u] }
    let db2 : DB :=
      if role == "customer" then
        { db1 with customers := db1.customers ++ [⟨newProfileId, newUserId⟩] }
      else if role == "accountant" then
        { db1 with accountants := db1.accountants ++ [⟨newProfileId, newUserId, true⟩] }
      else db1
    (⟨201, true, none,
      some "User registered successfully. Please check your email to verify your account."⟩, db2)

/- ## POST /api/auth/forgot-password -/

/-- A forgot-password response: the body may carry a reset token in
development mode. -/
structure ForgotResponse where
  status : Nat
  success : Bool
  message : String
  resetToken : Option String
deriving DecidableEq, Repr

/-- The forgot-password handler: an unknown email gets a non-committal 200,
a known email gets a 200 whose message differs and, in development mode,
carries the fresh reset token; the known-email path also stores the token. -/
def forgotPassword (db : DB) (email : String) (devMode : Bool)
    (newTok : String) (expiresAt : Nat) : ForgotResponse × DB :=
  match findByEmail db email with
  | none =>
    (⟨200, true, "If an account with that email exists, we have sent a password reset link.", none⟩, db)
  | some u =>
    let db1 : DB :=
      { db with users := db.users.map (fun w =>
          if w.id == u.id then
            { w with resetPasswordToken := some newTok, resetPasswordExpires := some expiresAt }
          else w) }
    (⟨200, true, "Password reset link sent to your email",
      if devMode then some newTok else none⟩, db1)

/- ## POST /api/tax-returns -/

/-- The validated request body of POST /api/tax-returns. -/
structure CreateTRInput where
  taxYear : String
  situationType : String
  submissionDeadline : Option Nat
deriving DecidableEq, Repr

/-- The default deadline constant `new Date(2024-01-31)` of the handler,
abstracted to a fixed timestamp. -/
def defaultDeadline : Nat := 20240131

/-- The create handler after authenticate/authorize(customer)/validation:
resolve the customer profile, reject when a return for that customer and
tax year already exists, otherwise insert a new pending row. -/
def createTaxReturn (db : DB) (p : Principal) (inp : CreateTRInput)
    (newId : Nat) : Response × DB :=
  match getCustomerIdFromUser db p.id with
  | none => (⟨400, false, some "Customer profile not found", none⟩, db)
  | some cid =>
    if (findByCustomerId db cid (some inp.taxYear)).length > 0 then
      (⟨400, false, some "Tax return for this year already exists", none⟩, db)
    else
      let deadline := inp.submissionDeadline.getD defaultDeadline
      let tr : TaxReturnRow :=
        ⟨newId, cid, none, inp.taxYear, "pending", inp.situationType, deadline, 169, "pending"⟩
      (⟨201, true, none, some "Tax return created successfully"⟩,
       { db with taxReturns := db.taxReturns ++ [tr] })

/-- Invariant from the spec: at most one tax return per (customer, tax year). -/
def atMostOnePerYear (db : DB) : Prop :=
  ∀ c y, (db.taxReturns.filter (fun tr => tr.customerId == c && tr.taxYear == y)).length ≤ 1

/- ## GET /api/tax-returns/:id -/

/-- The result of the single-tax-return GET: status, error and, on success,
the record that is disclosed. -/
structure GetTRResult where
  status : Nat
  error : Option String
  data : Option TaxReturnRow
deriving DecidableEq, Repr

/-- The GET /api/tax-returns/:id handler after authenticate: 404 for an
unknown id; a customer caller must own the return and an accountant caller
must be the assigned accountant, else 403; any other role (admin) falls
through to the success branch that returns the record. -/
def getTaxReturn (db : DB) (p : Principal) (rid : Nat) : GetTRResult :=
  match findTaxReturnById db rid with
  | none => ⟨404, some "Tax return not found", none⟩
  | some tr =>
    if p.role == "customer" then
      if some tr.customerId ≠ getCustomerIdFromUser db p.id then
        ⟨403, some "Access denied", none⟩
      else
        ⟨200, none, some tr⟩
    else if p.role == "accountant" then
      if tr.accountantId ≠ getAccountantIdFromUser db p.id then
        ⟨403, some "Access denied", none⟩
      else
        ⟨200, none, some tr⟩
    else
      ⟨200, none, some tr⟩

/- ## PUT /api/tax-returns/:id/status -/

/-- The status allow-list of TaxReturn.updateStatus and of the route
validator. -/
def validStatuses : List String :=
  ["pending", "in_progress", "review", "completed", "filed", "cancelled"]

/-- `UPDATE tax_returns SET status = $1 WHERE id = $2`. -/
def setTRStatus (db : DB) (rid : Nat) (s : String) : DB :=
  { db with taxReturns := db.taxReturns.map (fun tr =>
      if tr.id == rid then { tr with status := s } else tr) }

/-- TaxReturn.updateStatus: validate the new status against the allow-list,
then overwrite the stored status unconditionally (no transition check). -/
def updateStatus (db : DB) (rid : Nat) (newStatus : String) : Except String DB :=
  if validStatuses.contains newStatus then
    .ok (setTRStatus db rid newStatus)
  else
    .error "Invalid status"

/-- The PUT /api/tax-returns/:id/status pipeline: authorize(accountant, admin),
validator isIn(validStatuses), 404 on unknown id, assigned-accountant check
for accountant callers, then updateStatus. -/
def putStatus (db : DB) (p : Principal) (rid : Nat) (newStatus : String) : Response × DB :=
  if !(p.role == "accountant" || p.role == "admin") then
    (⟨403, false, some "Access denied. Insufficient permissions.", none⟩, db)
  else if !(validStatuses.contains newStatus) then
    (⟨400, false, some "Validation failed", none⟩, db)
  else
    match findTaxReturnById db rid with
    | none => (⟨404, false, some "Tax return not found", none⟩, db)
    | some tr =>
      if p.role == "accountant" && tr.accountantId ≠ getAccountantIdFromUser db p.id then
        (⟨403, false, some "Access denied", none⟩, db)
      else
        match updateStatus db rid newStatus with
        | .ok db1 =>
          (⟨200, true, none, some "Tax return status updated successfully"⟩, db1)
        | .error _ => (⟨500, false, some "Invalid status", none⟩, db)

/- ## TaxReturn.assignAccountant -/

/-- TaxReturn.assignAccountant:
`UPDATE tax_returns SET accountant_id = $1, status = in_progress WHERE id = $2`
— the status assignment is unconditional. -/
def assignAccountant (db : DB) (rid : Nat) (aid : Nat) : DB :=
  { db with taxReturns := db.taxReturns.map (fun tr =>
      if tr.id == rid then { tr with accountantId := some aid, status := "in_progress" } else tr) }

/- ## TaxReturn.delete and the transaction helper -/

/-- `DELETE FROM messages WHERE tax_return_id = $1`. -/
def delMessages (rid : Nat) (db : DB) : DB :=
  { db with messages := db.messages.filter (fun r => r.taxReturnId != rid) }

/-- `DELETE FROM documents WHERE tax_return_id = $1`. -/
def delDocuments (rid : Nat) (db : DB) : DB :=
  { db with documents := db.documents.filter (fun r => r.taxReturnId != rid) }

/-- `DELETE FROM expenses WHERE tax_return_id = $1`. -/
def delExpenses (rid : Nat) (db : DB) : DB :=
  { db with expenses := db.expenses.filter (fun r => r.taxReturnId != rid) }

/-- `DELETE FROM income_sources WHERE tax_return_id = $1`. -/
def delIncomeSources (rid : Nat) (db : DB) : DB :=
  { db with incomeSources := db.incomeSources.filter (fun r => r.taxReturnId != rid) }

/-- `DELETE FROM payments WHERE tax_return_id = $1`. -/
def delPayments (rid : Nat) (db : DB) : DB :=
  { db with payments := db.payments.filter (fun r => r.taxReturnId != rid) }

/-- `DELETE FROM tax_returns WHERE id = $1`. -/
def delTaxReturnRow (rid : Nat) (db : DB) : DB :=
  { db with taxReturns := db.taxReturns.filter (fun r => r.id != rid) }

/-- The six statements of TaxReturn.delete in source order: messages,
documents, expenses, income_sources, payments, then the tax_returns row. -/
def deleteSteps (rid : Nat) : List (DB → DB) :=
  [delMessages rid, delDocuments rid, delExpenses rid,
   delIncomeSources rid, delPayments rid, delTaxReturnRow rid]

/-- Run a sequence of statements on the transaction client; `failAt = some i`
injects a query failure at the i-th statement, aborting the callback with an
error there. -/
def runSteps : List (DB → DB) → Option Nat → DB → Except String DB
  | [], _, db => .ok db
  | _ :: _, some 0, _ => .error "query failed"
  | f :: fs, some (n + 1), db => runSteps fs (some n) (f db)
  | f :: fs, none, db => runSteps fs none (f db)

/-- The transaction helper of config/database.js: BEGIN, run the callback,
COMMIT its resulting state on success; on any error ROLLBACK, leaving the
store exactly as it was, and rethrow. -/
def transaction (cb : DB → Except String DB) (db : DB) : DB × Option String :=
  match cb db with
  | .ok db1 => (db1, none)
  | .error e => (db, some e)

/-- TaxReturn.delete: the six deletions wrapped in one transaction. -/
def deleteTaxReturn (rid : Nat) (failAt : Option Nat) (db : DB) : DB × Option String :=
  transaction (runSteps (deleteSteps rid) failAt) db

/- ## Document upload (uploads router) -/

/-- The default extension allow-list of the upload fileFilter. -/
def allowedTypesDefault : List String :=
  ["pdf", "jpg", "jpeg", "png", "doc", "docx", "xls", "xlsx"]

/-- Index of the last dot in a character list, if any. -/
def lastDotIdx : List Char → Option Nat
  | [] => none
  | c :: cs =>
    match lastDotIdx cs with
    | some i => some (i + 1)
    | none => if c = '.' then some 0 else none

/-- path.extname on a bare filename: the substring from the last dot to the
end, and the empty string when there is no dot or the only dot leads the
name. -/
def extname (name : String) : String :=
  match lastDotIdx name.toList with
  | none => ""
  | some 0 => ""
  | some i => ⟨name.toList.drop i⟩

/-- The extension the fileFilter tests:
`path.extname(file.originalname).toLowerCase().substring(1)` — the extension
characters lower-cased with the leading dot removed. -/
def fileExtension (name : String) : String :=
  ⟨((extname name).data.map Char.toLower).drop 1⟩

/-- The upload fileFilter: accept exactly when the lower-cased extension is
in the allow-list. -/
def fileFilter (allowed : List String) (name : String) : Bool :=
  allowed.contains (fileExtension name)

/-- Modelled from the spec: the multer disk-storage pipeline, library code
that is not part of the repository sources. Files are offered to the
repository's fileFilter in order; an accepted file is written to disk, and
the first rejection aborts the request with an error, removing the files
already stored for it (spec §4.4: on failure, uploaded files are deleted to
avoid orphans). Returns the files left on disk and whether a rejection
occurred. -/
def multerRun (allowed : List String) : List String → List String → List String × Bool
  | stored, [] => (stored, false)
  | stored, f :: fs =>
    if fileFilter allowed f then
      multerRun allowed (stored ++ [f]) fs
    else
      ([], true)

/-- Outcome of a whole upload request: the response, the database state and
the files from this request that remain on disk. -/
structure UploadOutcome where
  resp : Response
  db : DB
  disk : List String
deriving DecidableEq, Repr

/-- POST /api/uploads/documents/:taxReturnId — multer runs first (fileFilter
per file, cleanup on rejection); then the handler checks the tax return and
the caller's access, unlinking the stored files on 404/403, and only then
inserts one documents row per stored file. -/
def uploadDocuments (db : DB) (p : Principal) (allowed : List String)
    (rid : Nat) (files : List String) (baseDocId : Nat) (docType : String) : UploadOutcome :=
  let (stored, rejected) := multerRun allowed [] files
  if rejected then
    ⟨⟨500, false, some "File type not allowed", none⟩, db, []⟩
  else
    match findTaxReturnById db rid with
    | none => ⟨⟨404, false, some "Tax return not found", none⟩, db, []⟩
    | some tr =>
      let hasAccess :=
        if p.role == "admin" then true
        else if p.role == "customer" then
          getCustomerIdFromUser db p.id == some tr.customerId
        else if p.role == "accountant" then
          getAccountantIdFromUser db p.id == tr.accountantId
        else false
      if !hasAccess then
        ⟨⟨403, false, some "Access denied", none⟩, db, []⟩
      else if stored.isEmpty then
        ⟨⟨400, false, some "No files uploaded", none⟩, db, stored⟩
      else
        let rows := (stored.enum).map (fun fi =>
          (⟨baseDocId + fi.1, rid, p.id, docType, fi.2, fi.2⟩ : DocumentRow))
        ⟨⟨201, true, none, some "documents uploaded successfully"⟩,
         { db with documents := db.documents ++ rows }, stored⟩

/- ## Concrete fixtures used by witnesses and counterexamples -/

/-- The empty store. -/
def emptyDB : DB := ⟨[], [], [], [], [], [], [], [], []⟩

/-- A sample token payload. -/
def payloadW : Payload := ⟨100, "alice@example.com", "customer", 5⟩

/-- A correctly signed token for `payloadW` under secret "s3cret". -/
def tokenGood : Token := ⟨payloadW, signPayload "s3cret" payloadW⟩

/-- A tampered token: same payload, signature off by one. -/
def tokenBad : Token := ⟨payloadW, signPayload "s3cret" payloadW + 1⟩

/-- A registered user row for the duplicate-registration fixtures. -/
def aliceRow : UserRow :=
  ⟨100, "alice@example.com", "h4sh", "Alice", "Smith", none, "customer",
   true, none, none, none, none, 1, 1⟩

/-- Store holding one registered user, for the duplicate-registration witness. -/
def dbC5 : DB := ⟨[aliceRow], [], [], [], [], [], [], [], []⟩

/-- A registered user row for the forgot-password counterexample. -/
def bobRow : UserRow :=
  ⟨101, "bob@example.com", "h4sh", "Bob", "Jones", none, "customer",
   true, none, none, none, none, 1, 1⟩

/-- Store holding one registered user, for the forgot-password counterexample. -/
def dbC9 : DB := ⟨[bobRow], [], [], [], [], [], [], [], []⟩

/-- A tax return with a status that has advanced beyond the default. -/
def trC7 : TaxReturnRow :=
  ⟨1, 10, none, "2023-24", "review", "self-employed", 0, 169, "pending"⟩

/-- Store holding one advanced-status tax return. -/
def dbC7 : DB := ⟨[], [], [], [trC7], [], [], [], [], []⟩

/-- A tax return owned by customer 6, for the ownership witness. -/
def trC1 : TaxReturnRow :=
  ⟨1, 6, none, "2023-24", "pending", "self-employed", 0, 169, "pending"⟩

/-- Store where user 100 has customer profile 5 and the only return is owned
by customer 6. -/
def dbC1 : DB := ⟨[], [⟨5, 100⟩], [], [trC1], [], [], [], [], []⟩

/-- A tax return for customer 5, year 2023-24, for the uniqueness witness. -/
def trC3 : TaxReturnRow :=
  ⟨1, 5, none, "2023-24", "pending", "self-employed", 0, 169, "pending"⟩

/-- Store where user 100 has customer profile 5 which already owns the
2023-24 return. -/
def dbC3 : DB := ⟨[], [⟨5, 100⟩], [], [trC3], [], [], [], [], []⟩

/-- A pending tax return assigned to accountant 9, for the status witness. -/
def trC6 : TaxReturnRow :=
  ⟨1, 5, some 9, "2023-24", "pending", "self-employed", 0, 169, "pending"⟩

/-- Store holding the pending assigned return. -/
def dbC6 : DB := ⟨[], [], [⟨9, 200, true⟩], [trC6], [], [], [], [], []⟩

/-- A tax return with one child row in every child table, for the cascade
witness. -/
def dbC2 : DB :=
  ⟨[], [], [], [⟨1, 5, none, "2023-24", "pending", "self-employed", 0, 169, "pending"⟩],
   [⟨21, 1⟩], [⟨22, 1⟩], [⟨23, 1, 100, "other", "a.pdf", "a.pdf"⟩], [⟨24, 1⟩], [⟨25, 1⟩]⟩

/- ## Theorems -/

/-- Key lemma: find? over a map that does not change the tested field. -/
theorem find?_map_of_pres {α : Type} (p : α → Bool) (g : α → α) (l : List α)
    (h : ∀ a, p (g a) = p a) : (l.map g).find? p = (l.find? p).map g := by
  induction l with
  | nil => rfl
  | cons a l ih =>
    simp only [List.map_cons, List.find?]
    rw [h a]
    cases hp : p a
    · simpa using ih
    · rfl

/-- Key lemma: filtering for the rows a preceding delete removed yields
nothing. -/
theorem filter_after_delete {α : Type} (f : α → Nat) (x : Nat) (l : List α) :
    (l.filter (fun r => f r != x)).filter (fun r => f r == x) = [] := by
  induction l with
  | nil => rfl
  | cons a l ih =>
    by_cases hx : f a = x
    · have h1 : (f a != x) = false := by simp [hx]
      simp only [List.filter_cons, h1, Bool.false_eq_true, if_false, ih]
    · have h1 : (f a != x) = true := by simp [hx]
      have h2 : (f a == x) = false := by simp [hx]
      simp only [List.filter_cons, h1, h2, if_true, Bool.false_eq_true, if_false, ih]

/-- C4: a bearer token past its expiry but correctly signed is rejected by
the authenticate middleware with 401 and the expired error kind, while a
token whose signature does not verify is rejected with 401 and the distinct
invalid error kind. -/
theorem token_expired_vs_invalid (db : DB) (secret : String) (now : Nat) (t : Token) :
    (t.sig = signPayload secret t.payload → t.payload.exp ≤ now →
      authenticate db secret now (some t) = .denied 401 "Access denied. Token expired.")
    ∧ (t.sig ≠ signPayload secret t.payload →
      authenticate db secret now (some t) = .denied 401 "Access denied. Invalid token.") := by
  constructor
  · intro hs he
    simp [authenticate, jwtVerify, hs, he]
  · intro hs
    simp [authenticate, jwtVerify, hs]

/-- C4 witness: the expired branch at a concrete good-but-stale token, and
the invalid branch at a concrete tampered token. -/
theorem token_expired_vs_invalid_witness :
    authenticate emptyDB "s3cret" 10 (some tokenGood) =
      .denied 401 "Access denied. Token expired."
    ∧ authenticate emptyDB "s3cret" 10 (some tokenBad) =
      .denied 401 "Access denied. Invalid token." :=
  ⟨(token_expired_vs_invalid emptyDB "s3cret" 10 tokenGood).1 rfl (by decide),
   (token_expired_vs_invalid emptyDB "s3cret" 10 tokenBad).2 (Nat.succ_ne_self _)⟩

/-- C5: registering with an email already present in the users table fails
with the 400 conflict response and leaves the whole store, in particular the
users table, unchanged. -/
theorem register_duplicate_email (db : DB) (inp : RegisterInput)
    (nUid nPid : Nat) (pw vtok : String) (now : Nat)
    (h : ∃ u ∈ db.users, u.email = inp.email) :
    (register db inp nUid nPid pw vtok now).1 =
      ⟨400, false, some "User with this email already exists", none⟩
    ∧ (register db inp nUid nPid pw vtok now).2 = db := by
  obtain ⟨u, hu, he⟩ := h
  have hfind : (findByEmail db inp.email).isSome := by
    rw [findByEmail, List.find?_isSome]
    exact ⟨u, hu, by simp [he]⟩
  rcases hf : findByEmail db inp.email with _ | v
  · rw [hf] at hfind; simp at hfind
  · simp [register, hf]

/-- C5 witness: a second registration of the already-registered address. -/
theorem register_duplicate_email_witness :
    (∃ u ∈ dbC5.users, u.email = "alice@example.com")
    ∧ (register dbC5 ⟨"alice@example.com", "Passw0rd", "Al", "Sm", none, none⟩ 2 3 "h" "v" 9).1 =
        ⟨400, false, some "User with this email already exists", none⟩
    ∧ (register dbC5 ⟨"alice@example.com", "Passw0rd", "Al", "Sm", none, none⟩ 2 3 "h" "v" 9).2 = dbC5 :=
  ⟨⟨aliceRow, by simp [dbC5], rfl⟩,
   (register_duplicate_email dbC5 ⟨"alice@example.com", "Passw0rd", "Al", "Sm", none, none⟩
      2 3 "h" "v" 9 ⟨aliceRow, by simp [dbC5], rfl⟩).1,
   (register_duplicate_email dbC5 ⟨"alice@example.com", "Passw0rd", "Al", "Sm", none, none⟩
      2 3 "h" "v" 9 ⟨aliceRow, by simp [dbC5], rfl⟩).2⟩

/-- C9: outside development mode the forgot-password handler answers 200 for
a registered and for an unknown email alike, but the two response messages
differ, so the response does reveal whether an account exists — contradicting
the handler's own comment about not revealing it. Evaluated at a concrete
store with one registered address. -/
theorem forgot_password_reveals_account :
    (forgotPassword dbC9 "bob@example.com" false "tok" 99).1.status =
      (forgotPassword dbC9 "nobody@example.com" false "tok" 99).1.status
    ∧ (forgotPassword dbC9 "bob@example.com" false "tok" 99).1.message ≠
      (forgotPassword dbC9 "nobody@example.com" false "tok" 99).1.message := by
  constructor
  · rfl
  · decide

/-- C10: User.toJSON emits exactly the keys id, email, firstName, lastName,
phone, role, isVerified, lastLogin, createdAt, updatedAt, and every emitted
value is one of those ten non-credential projections, so the password hash,
verification token and reset-password token fields are never serialized. -/
theorem toJSON_field_whitelist (u : UserRow) :
    (toJSON u).map Prod.fst =
      ["id", "email", "firstName", "lastName", "phone", "role",
       "isVerified", "lastLogin", "createdAt", "updatedAt"]
    ∧ ("passwordHash" ∉ (toJSON u).map Prod.fst
       ∧ "verificationToken" ∉ (toJSON u).map Prod.fst
       ∧ "resetPasswordToken" ∉ (toJSON u).map Prod.fst)
    ∧ ∀ v ∈ (toJSON u).map Prod.snd,
        v ∈ [JVal.n u.id, .s u.email, .s u.firstName, .s u.lastName, optS u.phone,
             .s u.role, .b u.isVerified, optN u.lastLogin, .n u.createdAt, .n u.updatedAt] := by
  have hkeys : (toJSON u).map Prod.fst =
      ["id", "email", "firstName", "lastName", "phone", "role",
       "isVerified", "lastLogin", "createdAt", "updatedAt"] := rfl
  refine ⟨hkeys, ⟨?_, ?_, ?_⟩, ?_⟩
  · rw [hkeys]; decide
  · rw [hkeys]; decide
  · rw [hkeys]; decide
  · intro v hv
    simpa [toJSON] using hv

/-- C10 witness: the value whitelist instantiated on the concrete user row,
with the membership hypothesis discharged for the email value. -/
theorem toJSON_field_whitelist_witness :
    JVal.s "alice@example.com" ∈ (toJSON aliceRow).map Prod.snd
    ∧ JVal.s "alice@example.com" ∈
        [JVal.n aliceRow.id, .s aliceRow.email, .s aliceRow.firstName, .s aliceRow.lastName,
         optS aliceRow.phone, .s aliceRow.role, .b aliceRow.isVerified,
         optN aliceRow.lastLogin, .n aliceRow.createdAt, .n aliceRow.updatedAt] :=
  ⟨by decide,
   (toJSON_field_whitelist aliceRow).2.2 (JVal.s "alice@example.com") (by decide)⟩

/-- C7 counterexample: on a return whose status has already advanced to
review, assignAccountant does not leave the status unchanged — it overwrites
it with in_progress, because the UPDATE sets the status unconditionally. -/
theorem assignAccountant_overwrites_advanced_status :
    (findTaxReturnById dbC7 1).map TaxReturnRow.status = some "review"
    ∧ (findTaxReturnById (assignAccountant dbC7 1 7) 1).map TaxReturnRow.status =
        some "in_progress" := by
  constructor
  · rfl
  · rfl

/-- C7 amended: assigning an accountant sets accountant_id and force-sets the
status to in_progress unconditionally, whatever the current status is —
including statuses that have advanced beyond the default. -/
theorem assignAccountant_sets_in_progress (db : DB) (rid aid : Nat) (tr : TaxReturnRow)
    (h : findTaxReturnById db rid = some tr) :
    findTaxReturnById (assignAccountant db rid aid) rid =
      some { tr with accountantId := some aid, status := "in_progress" } := by
  have h' : db.taxReturns.find? (fun x => x.id == rid) = some tr := h
  have hp : (tr.id == rid) = true := by
    simpa using List.find?_some h'
  have hpres : ∀ a : TaxReturnRow,
      (((if a.id == rid then
          { a with accountantId := some aid, status := "in_progress" } else a).id) == rid)
        = (a.id == rid) := by
    intro a
    by_cases ha : (a.id == rid) = true
    · simp [ha]
    · simp only [Bool.not_eq_true] at ha
      simp [ha]
  simp only [findTaxReturnById, assignAccountant]
  rw [find?_map_of_pres _ _ _ hpres, h']
  simp only [Option.map]
  rw [if_pos hp]

/-- C7 amended witness: assignment on the advanced-status fixture rewrites
both the accountant and the status. -/
theorem assignAccountant_sets_in_progress_witness :
    findTaxReturnById dbC7 1 = some trC7
    ∧ findTaxReturnById (assignAccountant dbC7 1 7) 1 =
        some { trC7 with accountantId := some 7, status := "in_progress" } :=
  ⟨rfl, assignAccountant_sets_in_progress dbC7 1 7 trC7 rfl⟩

/-- C1: on an existing tax return, a customer caller whose resolved customer
profile differs from the owning customer id gets a 403 with no record data,
while an admin caller always gets a 200 carrying the record, regardless of
ownership. -/
theorem get_tax_return_access (db : DB) (p : Principal) (rid : Nat) (tr : TaxReturnRow)
    (htr : findTaxReturnById db rid = some tr) :
    (p.role = "customer" → getCustomerIdFromUser db p.id ≠ some tr.customerId →
      getTaxReturn db p rid = ⟨403, some "Access denied", none⟩)
    ∧ (p.role = "admin" → getTaxReturn db p rid = ⟨200, none, some tr⟩) := by
  constructor
  · intro hrole hmis
    have hmis2 : some tr.customerId ≠ getCustomerIdFromUser db p.id := Ne.symm hmis
    simp [getTaxReturn, htr, hrole, hmis2]
  · intro hrole
    simp [getTaxReturn, htr, hrole]

/-- C1 witness: user 100 owns customer profile 5 but the return belongs to
customer 6, so the customer caller is denied; the admin caller reads it. -/
theorem get_tax_return_access_witness :
    findTaxReturnById dbC1 1 = some trC1
    ∧ getTaxReturn dbC1 ⟨100, "alice@example.com", "customer"⟩ 1 =
        ⟨403, some "Access denied", none⟩
    ∧ getTaxReturn dbC1 ⟨1, "root@example.com", "admin"⟩ 1 = ⟨200, none, some trC1⟩ :=
  ⟨rfl,
   (get_tax_return_access dbC1 ⟨100, "alice@example.com", "customer"⟩ 1 trC1 rfl).1
     rfl (by decide),
   (get_tax_return_access dbC1 ⟨1, "root@example.com", "admin"⟩ 1 trC1 rfl).2 rfl⟩

/-- Helper: the status UPDATE rewrites exactly the looked-up row. -/
theorem find?_setTRStatus (db : DB) (rid : Nat) (s : String) (tr : TaxReturnRow)
    (h : findTaxReturnById db rid = some tr) :
    findTaxReturnById (setTRStatus db rid s) rid = some { tr with status := s } := by
  have h' : db.taxReturns.find? (fun x => x.id == rid) = some tr := h
  have hp : (tr.id == rid) = true := by
    simpa using List.find?_some h'
  have hpres : ∀ a : TaxReturnRow,
      (((if a.id == rid then { a with status := s } else a).id) == rid) = (a.id == rid) := by
    intro a
    by_cases ha : (a.id == rid) = true
    · simp [ha]
    · simp only [Bool.not_eq_true] at ha
      simp [ha]
  simp only [findTaxReturnById, setTRStatus]
  rw [find?_map_of_pres _ _ _ hpres, h']
  simp only [Option.map]
  rw [if_pos hp]

/-- C6: for any enumerated status, a status update through the PUT pipeline
by an admin, or by the accountant assigned to the return, answers 200 and
stores exactly that status, with no condition on the current status — no
state machine is enforced. -/
theorem put_status_no_state_machine (db : DB) (p : Principal) (rid : Nat) (s : String)
    (tr : TaxReturnRow)
    (hs : s ∈ validStatuses)
    (htr : findTaxReturnById db rid = some tr)
    (hauth : p.role = "admin"
      ∨ (p.role = "accountant" ∧ tr.accountantId = getAccountantIdFromUser db p.id)) :
    (putStatus db p rid s).1.status = 200
    ∧ findTaxReturnById (putStatus db p rid s).2 rid = some { tr with status := s } := by
  have hcon : validStatuses.contains s = true := by
    simpa using hs
  have hfin :
      putStatus db p rid s =
        (⟨200, true, none, some "Tax return status updated successfully"⟩,
         setTRStatus db rid s) := by
    rcases hauth with hrole | ⟨hrole, hacc⟩
    · simp [putStatus, hrole, hcon, hs, htr, updateStatus]
    · simp [putStatus, hrole, hcon, hs, htr, updateStatus, hacc]
  rw [hfin]
  exact ⟨rfl, find?_setTRStatus db rid s tr htr⟩

/-- C6 witness: an admin moves the pending return of the fixture directly to
filed, skipping every intermediate state. -/
theorem put_status_no_state_machine_witness :
    "filed" ∈ validStatuses
    ∧ findTaxReturnById dbC6 1 = some trC6
    ∧ trC6.status = "pending"
    ∧ (putStatus dbC6 ⟨1, "root@example.com", "admin"⟩ 1 "filed").1.status = 200
    ∧ findTaxReturnById (putStatus dbC6 ⟨1, "root@example.com", "admin"⟩ 1 "filed").2 1 =
        some { trC6 with status := "filed" } :=
  ⟨by decide, rfl, rfl,
   (put_status_no_state_machine dbC6 ⟨1, "root@example.com", "admin"⟩ 1 "filed" trC6
      (by decide) rfl (Or.inl rfl)).1,
   (put_status_no_state_machine dbC6 ⟨1, "root@example.com", "admin"⟩ 1 "filed" trC6
      (by decide) rfl (Or.inl rfl)).2⟩

/-- C2: a fault-free TaxReturn.delete commits a state in which no child row
of the return remains in messages, documents, expenses, income_sources or
payments and the tax_returns row is gone; a failure injected at any of the
six statements rolls the transaction back, leaving every table exactly as it
was. -/
theorem delete_cascades_and_rolls_back (db : DB) (rid : Nat) :
    ((deleteTaxReturn rid none db).1.messages.filter (fun r => r.taxReturnId == rid) = []
     ∧ (deleteTaxReturn rid none db).1.documents.filter (fun r => r.taxReturnId == rid) = []
     ∧ (deleteTaxReturn rid none db).1.expenses.filter (fun r => r.taxReturnId == rid) = []
     ∧ (deleteTaxReturn rid none db).1.incomeSources.filter (fun r => r.taxReturnId == rid) = []
     ∧ (deleteTaxReturn rid none db).1.payments.filter (fun r => r.taxReturnId == rid) = []
     ∧ (deleteTaxReturn rid none db).1.taxReturns.filter (fun r => r.id == rid) = [])
    ∧ (∀ i, i < 6 → deleteTaxReturn rid (some i) db = (db, some "query failed")) := by
  constructor
  · exact ⟨filter_after_delete (fun r => r.taxReturnId) rid db.messages,
      filter_after_delete (fun r => r.taxReturnId) rid db.documents,
      filter_after_delete (fun r => r.taxReturnId) rid db.expenses,
      filter_after_delete (fun r => r.taxReturnId) rid db.incomeSources,
      filter_after_delete (fun r => r.taxReturnId) rid db.payments,
      filter_after_delete (fun r => r.id) rid db.taxReturns⟩
  · intro i hi
    interval_cases i <;> rfl

/-- C2 witness: the rollback clause applied to the fixture with one child
row per table, with the fault injected at the first statement. -/
theorem delete_rolls_back_witness :
    0 < 6 ∧ deleteTaxReturn 1 (some 0) dbC2 = (dbC2, some "query failed") :=
  ⟨by decide, (delete_cascades_and_rolls_back dbC2 1).2 0 (by decide)⟩

/-- Helper: a filtered list is non-empty exactly when some element of the
original list satisfies the predicate. -/
theorem filter_pos_iff {α : Type} (l : List α) (q : α → Bool) :
    0 < (l.filter q).length ↔ ∃ a ∈ l, q a = true := by
  rw [List.length_pos]
  constructor
  · intro hne
    obtain ⟨a, ha⟩ := List.exists_mem_of_ne_nil _ hne
    exact ⟨a, (List.mem_filter.mp ha).1, (List.mem_filter.mp ha).2⟩
  · rintro ⟨a, hal, hq⟩
    exact List.ne_nil_of_mem (List.mem_filter.mpr ⟨hal, hq⟩)

/-- C3: when the caller's customer profile resolves, the create handler
rejects with the 400 already-exists error and leaves the store unchanged
whenever a return for that customer and tax year is stored, creates the
new pending row otherwise, and therefore preserves the at-most-one-return
per (customer, tax year) invariant. -/
theorem create_tax_return_unique (db : DB) (p : Principal) (inp : CreateTRInput) (newId : Nat) :
    (∀ cid, getCustomerIdFromUser db p.id = some cid →
      ((∃ tr ∈ db.taxReturns, tr.customerId = cid ∧ tr.taxYear = inp.taxYear) →
        createTaxReturn db p inp newId =
          (⟨400, false, some "Tax return for this year already exists", none⟩, db))
      ∧ (¬ (∃ tr ∈ db.taxReturns, tr.customerId = cid ∧ tr.taxYear = inp.taxYear) →
        (createTaxReturn db p inp newId).1.status = 201
        ∧ (createTaxReturn db p inp newId).2.taxReturns
            = db.taxReturns ++
              [⟨newId, cid, none, inp.taxYear, "pending", inp.situationType,
                inp.submissionDeadline.getD defaultDeadline, 169, "pending"⟩]))
    ∧ (atMostOnePerYear db → atMostOnePerYear (createTaxReturn db p inp newId).2) := by
  have hiff : ∀ cid,
      0 < (findByCustomerId db cid (some inp.taxYear)).length ↔
        ∃ tr ∈ db.taxReturns, tr.customerId = cid ∧ tr.taxYear = inp.taxYear := by
    intro cid
    rw [findByCustomerId, filter_pos_iff]
    constructor
    · rintro ⟨a, hal, hq⟩
      refine ⟨a, hal, ?_, ?_⟩
      · have := (Bool.and_eq_true _ _).mp hq
        exact beq_iff_eq.mp this.1
      · have := (Bool.and_eq_true _ _).mp hq
        exact beq_iff_eq.mp this.2
    · rintro ⟨a, hal, h1, h2⟩
      exact ⟨a, hal, by simp [h1, h2]⟩
  constructor
  · intro cid hcid
    constructor
    · intro hex
      have hlen : 0 < (findByCustomerId db cid (some inp.taxYear)).length :=
        (hiff cid).mpr hex
      simp [createTaxReturn, hcid, hlen]
    · intro hnex
      have hlen : ¬ 0 < (findByCustomerId db cid (some inp.taxYear)).length :=
        fun hc => hnex ((hiff cid).mp hc)
      refine ⟨?_, ?_⟩ <;> simp [createTaxReturn, hcid, hlen]
  · intro hinv
    rcases hcid : getCustomerIdFromUser db p.id with _ | cid
    · simpa [createTaxReturn, hcid] using hinv
    · by_cases hlen : 0 < (findByCustomerId db cid (some inp.taxYear)).length
      · simpa [createTaxReturn, hcid, hlen] using hinv
      · have hold : db.taxReturns.filter
            (fun tr => tr.customerId == cid && tr.taxYear == inp.taxYear) = [] := by
          have h0 : (findByCustomerId db cid (some inp.taxYear)).length = 0 :=
            Nat.eq_zero_of_not_pos hlen
          rw [findByCustomerId] at h0
          exact List.length_eq_zero.mp h0
        intro c y
        have h2 : (createTaxReturn db p inp newId).2.taxReturns
            = db.taxReturns ++
              [⟨newId, cid, none, inp.taxYear, "pending", inp.situationType,
                inp.submissionDeadline.getD defaultDeadline, 169, "pending"⟩] := by
          simp [createTaxReturn, hcid, hlen]
        rw [h2, List.filter_append]
        by_cases hcy : c = cid ∧ y = inp.taxYear
        · obtain ⟨hc1, hy1⟩ := hcy
          subst hc1
          subst hy1
          rw [hold]
          simp
        · have hb : ((cid == c) && (inp.taxYear == y)) = false := by
            by_cases h1 : cid = c
            · by_cases h2y : inp.taxYear = y
              · exact absurd ⟨h1.symm, h2y.symm⟩ hcy
              · simp [h2y]
            · simp [h1]
          have hnil : List.filter (fun tr => tr.customerId == c && tr.taxYear == y)
              [(⟨newId, cid, none, inp.taxYear, "pending", inp.situationType,
                 inp.submissionDeadline.getD defaultDeadline, 169, "pending"⟩ : TaxReturnRow)]
              = [] := by
            simp [hb]
          rw [hnil, List.append_nil]
          exact hinv c y

/-- C3 witness: the fixture customer already owns a 2023-24 return, so a
second creation for that year is rejected unchanged; and the handler
preserves the uniqueness invariant there. -/
theorem create_tax_return_unique_witness :
    getCustomerIdFromUser dbC3 100 = some 5
    ∧ createTaxReturn dbC3 ⟨100, "alice@example.com", "customer"⟩
        ⟨"2023-24", "self-employed", none⟩ 2 =
      (⟨400, false, some "Tax return for this year already exists", none⟩, dbC3) :=
  ⟨rfl,
   ((create_tax_return_unique dbC3 ⟨100, "alice@example.com", "customer"⟩
       ⟨"2023-24", "self-employed", none⟩ 2).1 5 rfl).1
     ⟨trC3, by simp [dbC3], rfl, rfl⟩⟩

/-- Helper: whenever some file of the batch fails the fileFilter, the multer
pipeline reports a rejection, whatever was stored before it. -/
theorem multerRun_rejects (allowed : List String) :
    ∀ files stored : List String,
      (∃ f ∈ files, fileFilter allowed f = false) →
      (multerRun allowed stored files).2 = true := by
  intro files
  induction files with
  | nil =>
    intro stored h
    simp at h
  | cons f fs ih =>
    intro stored h
    by_cases hf : fileFilter allowed f = true
    · have hfs : ∃ g ∈ fs, fileFilter allowed g = false := by
        obtain ⟨g, hg, hgf⟩ := h
        rcases List.mem_cons.mp hg with he | hm
        · rw [he, hf] at hgf
          exact absurd hgf (by simp)
        · exact ⟨g, hm, hgf⟩
      simp only [multerRun, hf, if_true]
      exact ih _ hfs
    · simp only [Bool.not_eq_true] at hf
      simp [multerRun, hf]

/-- C8: an upload batch containing a file whose extension fails the
allow-list leaves the documents table — and the whole store — unchanged, and
no file from the request remains on disk. -/
theorem upload_rejected_extension_clean (db : DB) (p : Principal) (allowed : List String)
    (rid : Nat) (files : List String) (baseDocId : Nat) (docType : String)
    (h : ∃ f ∈ files, fileFilter allowed f = false) :
    (uploadDocuments db p allowed rid files baseDocId docType).db = db
    ∧ (uploadDocuments db p allowed rid files baseDocId docType).disk = [] := by
  have hrej : (multerRun allowed [] files).2 = true := multerRun_rejects allowed files [] h
  have hpair : multerRun allowed [] files = ((multerRun allowed [] files).1, true) := by
    rw [← hrej]
  rw [uploadDocuments, hpair]
  exact ⟨rfl, rfl⟩

/-- C8 witness: a batch holding one .exe file against the default allow-list
is rejected with the store untouched and the disk clean. -/
theorem upload_rejected_extension_clean_witness :
    (∃ f ∈ ["virus.exe"], fileFilter allowedTypesDefault f = false)
    ∧ (uploadDocuments emptyDB ⟨1, "root@example.com", "admin"⟩ allowedTypesDefault
        1 ["virus.exe"] 50 "other").db = emptyDB
    ∧ (uploadDocuments emptyDB ⟨1, "root@example.com", "admin"⟩ allowedTypesDefault
        1 ["virus.exe"] 50 "other").disk = [] :=
  ⟨⟨"virus.exe", by decide, by decide⟩,
   (upload_rejected_extension_clean emptyDB ⟨1, "root@example.com", "admin"⟩
      allowedTypesDefault 1 ["virus.exe"] 50 "other"
      ⟨"virus.exe", by decide, by decide⟩).1,
   (upload_rejected_extension_clean emptyDB ⟨1, "root@example.com", "admin"⟩
      allowedTypesDefault 1 ["virus.exe"] 50 "other"
      ⟨"virus.exe", by decide, by decide⟩).2⟩

end TaxSite
